import Mathlib

/-!
Shallow embedding of the llm-proxy gateway core: credential store, model
catalog, inference-profile resolver, usage ledger, and the chat-completions
pipeline, translated from the Rust/SQL source
(`apikeys`, `users`, `models`, `usage`, `inference_profiles` crates and
`server/src/validation.rs`, `server/src/handlers/chat_completions.rs`).
The database is modelled as lists of rows; Postgres NUMERIC becomes `ℚ`,
BIGINT becomes `ℤ`, and timestamps carry the (year, month) data that
`date_trunc` with a month field inspects.
-/

namespace Gateway

/-- Rust's `str::to_lowercase`, restricted to the per-character lowering that
is exercised by ASCII keys, model names and ARNs. -/
def rustToLowercase (s : String) : String :=
  ⟨s.data.map Char.toLower⟩

/-- Does the first character list start with the second one? -/
def charsStartWith : List Char → List Char → Bool
  | _, [] => true
  | [], _ :: _ => false
  | c :: cs, p :: ps => c == p && charsStartWith cs ps

/-- Rust's `str::starts_with` on a string pattern. -/
def strStartsWith (s pat : String) : Bool :=
  charsStartWith s.data pat.data

/-- Dropping the first `n` characters of a string. -/
def strDrop (s : String) (n : Nat) : String :=
  ⟨s.data.drop n⟩

/-- Rust's `str::trim`, restricted to the ASCII whitespace that the
gateway's header values exercise. -/
def strTrim (s : String) : String :=
  ⟨((s.data.dropWhile Char.isWhitespace).reverse.dropWhile Char.isWhitespace).reverse⟩

/-- Fuel-driven loop behind `trimStartMatches`. -/
def trimStartMatchesGo (pat : String) : Nat → String → String
  | 0, s => s
  | n + 1, s =>
    if strStartsWith s pat && pat.data.length > 0 then
      trimStartMatchesGo pat n (strDrop s pat.data.length)
    else s

/-- Rust's `str::trim_start_matches`: repeatedly removes `pat` from the front
of `s` as long as it stays a leading substring. -/
def trimStartMatches (pat s : String) : String :=
  trimStartMatchesGo pat s.data.length s

/-- A point in time, carrying the calendar fields that the SQL
`date_trunc` month comparison inspects (`year`, `month`) plus an opaque
remainder standing for the day/time inside the month. -/
structure Timestamp where
  year : Int
  month : Nat
  rest : Nat
deriving DecidableEq, Repr

/-- The SQL month-equality test used by the usage ledger:
`date_trunc` to month of `a` equals `date_trunc` to month of `b`. -/
def sameMonth (a b : Timestamp) : Bool :=
  a.year == b.year && a.month == b.month

/-- A row of the `users` table (the Account of the data model). -/
structure UserRow where
  user_id : Nat
  email : String
  usage_record : Bool
  total_spent : ℚ
  total_tokens : Int
  updated_at : Timestamp
deriving DecidableEq, Repr

/-- A row of the `api_keys` table. -/
structure ApiKeyRow where
  api_key_id : Nat
  api_key : String
  user_id : Nat
  is_disabled : Bool
  updated_at : Timestamp
deriving DecidableEq, Repr

/-- A row of the `models` table. -/
structure ModelRow where
  model_id : Nat
  model_name : String
  input_price_per_token : ℚ
  output_price_per_token : ℚ
  protected_flag : Bool
deriving DecidableEq, Repr

/-- A row of the `inference_profiles` table. -/
structure InferenceProfileRow where
  user_id : Nat
  model_id : Nat
  inference_profile_arn : String
  inference_profile_name : String
deriving DecidableEq, Repr

/-- A row of the `usage` table (a UsageRecord). -/
structure UsageRow where
  api_key_id : Nat
  model_id : Nat
  user_id : Nat
  total_input_cost : ℚ
  total_input_tokens : Int
  total_output_cost : ℚ
  total_output_tokens : Int
deriving DecidableEq, Repr

/-- The relational store shared by all components. -/
structure Db where
  users : List UserRow
  api_keys : List ApiKeyRow
  models : List ModelRow
  inference_profiles : List InferenceProfileRow
  usage : List UsageRow
deriving DecidableEq, Repr

/-! ### apikeys crate -/

/-- Case-insensitive header lookup, as `axum::http::HeaderMap::get`
performs on header names. -/
def headerGet (headers : List (String × String)) (name : String) : Option String :=
  (headers.find? (fun p => rustToLowercase p.fst == rustToLowercase name)).map (·.snd)

/-- `apikeys::get_api_key`: extract the credential from the
`Authorization` header when it carries a `Bearer ` value; strip the
scheme and trim whitespace. -/
def get_api_key (headers : List (String × String)) : Option String :=
  (headerGet headers "Authorization").bind (fun auth =>
    if strStartsWith auth "Bearer " then
      some (strTrim (trimStartMatches "Bearer " auth))
    else
      none)

/-- `apikeys::disable_all_api_keys`: set `is_disabled` on every key row of
the account found by (lower-cased) email, returning the update's
`rows_affected` together with the new store. The SQL has no filter on the
current `is_disabled` value, so every matched row counts. -/
def disable_all_api_keys (db : Db) (user_email : String) (now : Timestamp) : Nat × Db :=
  let uid? := (db.users.find? (fun u => u.email == rustToLowercase user_email)).map (·.user_id)
  let hits := fun (r : ApiKeyRow) =>
    match uid? with
    | some uid => r.user_id == uid
    | none => false
  ((db.api_keys.filter hits).length,
   { db with api_keys := db.api_keys.map (fun r =>
       if hits r then { r with is_disabled := true, updated_at := now } else r) })

/-! ### server validation queries -/

/-- `validation::check_api_key_exists`: an enabled key row with the
lower-cased token exists. -/
def check_api_key_exists (db : Db) (api_key : String) : Bool :=
  db.api_keys.any (fun r => r.api_key == rustToLowercase api_key && r.is_disabled == false)

/-- `validation::check_api_key_exists_and_model_exists_and_get_inference_profile_arn`:
one combined query returning (enabled key exists, model exists, cached
profile ARN for the key's account and the model, when present). The
profile subquery resolves the key row without an `is_disabled` filter. -/
def check_api_key_exists_and_model_exists_and_get_inference_profile_arn
    (db : Db) (api_key : String) (model_name : String) : Bool × Bool × Option String :=
  let kl := rustToLowercase api_key
  let ml := rustToLowercase model_name
  let keyOk := db.api_keys.any (fun r => r.api_key == kl && r.is_disabled == false)
  let modelOk := db.models.any (fun r => r.model_name == ml)
  let uid? := (db.api_keys.find? (fun r => r.api_key == kl)).map (·.user_id)
  let mid? := (db.models.find? (fun r => r.model_name == ml)).map (·.model_id)
  let arn? :=
    match uid?, mid? with
    | some uid, some mid =>
      (db.inference_profiles.find? (fun p => p.user_id == uid && p.model_id == mid)).map
        (·.inference_profile_arn)
    | _, _ => none
  (keyOk, modelOk, arn?)

/-! ### usage crate -/

/-- `usage::CreateUsageRequest`. -/
structure CreateUsageRequest where
  api_key : String
  model_name : String
  input_tokens : Int
  output_tokens : Int
deriving DecidableEq, Repr

/-- The rows produced by the `usage_insert` CTE of `create_usage`: a cross
join of the key rows matching the raw (not lower-cased) `api_key` and the
model rows matching the raw `model_name`, with costs computed in exact
NUMERIC arithmetic as price-per-token times token count. -/
def usageInsertRows (db : Db) (req : CreateUsageRequest) : List UsageRow :=
  (db.api_keys.filter (fun r => r.api_key == req.api_key)).flatMap (fun ak =>
    (db.models.filter (fun r => r.model_name == req.model_name)).map (fun m =>
      { api_key_id := ak.api_key_id
        model_id := m.model_id
        user_id := ak.user_id
        total_input_cost := m.input_price_per_token * (req.input_tokens : ℚ)
        total_input_tokens := req.input_tokens
        total_output_cost := m.output_price_per_token * (req.output_tokens : ℚ)
        total_output_tokens := req.output_tokens }))

/-- The `UPDATE users` arm of `create_usage`: month-boundary detection on
`updated_at` versus `now` decides between adding to and replacing the
monthly totals; `updated_at` is set to `now` either way. -/
def applyUsageUpdate (now : Timestamp) (ui : UsageRow) (u : UserRow) : UserRow :=
  if sameMonth u.updated_at now then
    { u with
      total_spent := u.total_spent + (ui.total_input_cost + ui.total_output_cost)
      total_tokens := u.total_tokens + (ui.total_input_tokens + ui.total_output_tokens)
      updated_at := now }
  else
    { u with
      total_spent := ui.total_input_cost + ui.total_output_cost
      total_tokens := ui.total_input_tokens + ui.total_output_tokens
      updated_at := now }

/-- `usage::create_usage`: one transaction inserting the CTE rows into
`usage` and folding each inserted row into its owner's monthly totals.
When the CTE matches nothing the statement is a no-op and the function
still reports success. -/
def create_usage (db : Db) (now : Timestamp) (req : CreateUsageRequest) : Db :=
  let inserted := usageInsertRows db req
  { db with
    usage := db.usage ++ inserted
    users := db.users.map (fun u =>
      match inserted.find? (fun ui => ui.user_id == u.user_id) with
      | some ui => applyUsageUpdate now ui u
      | none => u) }

/-! ### inference_profiles crate -/

/-- The `copy_from` source handed to the backend provisioning call: a fully
qualified Bedrock resource locator when the model name starts with one of
the configured name starts, the model name itself otherwise. -/
def copyFromSource (model_name aws_region aws_account_id : String)
    (pfxs : List String) : String :=
  if pfxs.any (fun p => strStartsWith model_name p) then
    "arn:aws:bedrock:" ++ aws_region ++ ":" ++ aws_account_id ++
      ":inference-profile/" ++ model_name
  else
    model_name

/-- `inference_profiles::create_inference_profile`: call the backend with
the chosen source and a generated profile name; on success persist one row
per (matching key row, matching model row) pair storing the LOWER-CASED
ARN and name, and return the backend's ARN unmodified. On backend failure
return the error before any row is persisted. The backend call and the
generated name are parameters of the embedding. -/
def create_inference_profile (db : Db) (api_key model_name aws_region aws_account_id : String)
    (pfxs : List String) (backend : String → Except Unit String)
    (inference_profile_name : String) : Except Unit (String × Db) :=
  let copy_from := copyFromSource model_name aws_region aws_account_id pfxs
  match backend copy_from with
  | Except.error e => Except.error e
  | Except.ok inference_profile_arn =>
    let kl := rustToLowercase api_key
    let ml := rustToLowercase model_name
    let rows := (db.api_keys.filter (fun r => r.api_key == kl)).flatMap (fun ak =>
      (db.models.filter (fun r => r.model_name == ml)).map (fun m =>
        { user_id := ak.user_id
          model_id := m.model_id
          inference_profile_arn := rustToLowercase inference_profile_arn
          inference_profile_name := rustToLowercase inference_profile_name }))
    Except.ok (inference_profile_arn,
      { db with inference_profiles := db.inference_profiles ++ rows })

/-! ### chat-completions pipeline -/

/-- Observable outcome of the `chat_completions` handler up to the point
where the streaming relay is opened: either a rejection with the error
message the caller sees, or the relay opened with a routing handle and the
store as left by the profile-resolution step. -/
inductive PipelineResult where
  | rejected (message : String)
  | relaying (routing_handle : String) (db : Db)
deriving DecidableEq, Repr

/-- `handlers::chat_completions`: extract the credential, run the combined
validation query, reject on missing/invalid key, unknown model or
`stream: false`, then resolve the routing handle — the cached profile ARN
when present, otherwise the result of provisioning, falling back to the
lower-cased caller model name when provisioning fails. -/
def chat_completions (db : Db) (headers : List (String × String)) (payload_model : String)
    (stream : Option Bool) (aws_region aws_account_id : String) (pfxs : List String)
    (backend : String → Except Unit String) (profile_name : String) : PipelineResult :=
  match get_api_key headers with
  | none =>
    PipelineResult.rejected
      "Missing API key (provide Authorization: Bearer <key> or x-api-key header)"
  | some api_key =>
    let v := check_api_key_exists_and_model_exists_and_get_inference_profile_arn
      db api_key payload_model
    if v.1 = false then
      PipelineResult.rejected "Invalid or missing API key"
    else if v.2.1 = false then
      PipelineResult.rejected "Invalid or missing model name"
    else if stream = some false then
      PipelineResult.rejected "Streaming is required but was disabled"
    else
      match v.2.2 with
      | some arn => PipelineResult.relaying arn db
      | none =>
        match create_inference_profile db api_key payload_model aws_region aws_account_id
          pfxs backend profile_name with
        | Except.ok p => PipelineResult.relaying p.1 p.2
        | Except.error _ => PipelineResult.relaying (rustToLowercase payload_model) db

/-! ### Concrete sample stores used by closed theorems and witnesses -/

/-- A sample store: one account that has opted out of usage recording
(`usage_record = false`), one enabled key, one priced model. -/
def dbC1 : Db :=
  { users := [{ user_id := 1, email := "optout@example.com", usage_record := false,
                total_spent := 0, total_tokens := 0, updated_at := ⟨2026, 10, 1⟩ }]
    api_keys := [{ api_key_id := 10, api_key := "key-1111", user_id := 1,
                   is_disabled := false, updated_at := ⟨2026, 10, 1⟩ }]
    models := [{ model_id := 20, model_name := "m1",
                 input_price_per_token := mkRat 1 100,
                 output_price_per_token := mkRat 2 100, protected_flag := false }]
    inference_profiles := []
    usage := [] }

/-- A usage write against `dbC1`'s opted-out account. -/
def reqC1 : CreateUsageRequest :=
  { api_key := "key-1111", model_name := "m1", input_tokens := 10, output_tokens := 5 }

/-- A sample store holding an enabled lower-case key `key-9999` and model
`m1`; used to exercise the usage write with a differently-cased key. -/
def dbC9 : Db :=
  { users := [{ user_id := 1, email := "a@b.c", usage_record := true,
                total_spent := 0, total_tokens := 0, updated_at := ⟨2026, 10, 1⟩ }]
    api_keys := [{ api_key_id := 10, api_key := "key-9999", user_id := 1,
                   is_disabled := false, updated_at := ⟨2026, 10, 1⟩ }]
    models := [{ model_id := 20, model_name := "m1",
                 input_price_per_token := mkRat 1 100,
                 output_price_per_token := mkRat 2 100, protected_flag := false }]
    inference_profiles := []
    usage := [] }

/-- A usage write whose key differs from the stored `key-9999` only in
letter case — validation would accept it, the usage join will not. -/
def reqC9 : CreateUsageRequest :=
  { api_key := "KEY-9999", model_name := "m1", input_tokens := 10, output_tokens := 5 }

/-- A sample store for the rollover scenario: the account already carries
100 tokens recorded earlier in October 2026. -/
def dbC2 : Db :=
  { users := [{ user_id := 1, email := "a@b.c", usage_record := true,
                total_spent := 1, total_tokens := 100, updated_at := ⟨2026, 10, 1⟩ }]
    api_keys := [{ api_key_id := 10, api_key := "key-2222", user_id := 1,
                   is_disabled := false, updated_at := ⟨2026, 10, 1⟩ }]
    models := [{ model_id := 20, model_name := "m1",
                 input_price_per_token := mkRat 1 100,
                 output_price_per_token := mkRat 2 100, protected_flag := false }]
    inference_profiles := []
    usage := [] }

/-- The key row of `dbC2`. -/
def akC2 : ApiKeyRow :=
  { api_key_id := 10, api_key := "key-2222", user_id := 1,
    is_disabled := false, updated_at := ⟨2026, 10, 1⟩ }

/-- The model row of `dbC2`. -/
def mC2 : ModelRow :=
  { model_id := 20, model_name := "m1",
    input_price_per_token := mkRat 1 100,
    output_price_per_token := mkRat 2 100, protected_flag := false }

/-- The user row of `dbC2`. -/
def uC2 : UserRow :=
  { user_id := 1, email := "a@b.c", usage_record := true,
    total_spent := 1, total_tokens := 100, updated_at := ⟨2026, 10, 1⟩ }

/-- A second same-month 100-token request against `dbC2`. -/
def reqC2 : CreateUsageRequest :=
  { api_key := "key-2222", model_name := "m1", input_tokens := 100, output_tokens := 0 }

/-- A sample store for the pricing scenario of the spec: model `m1` priced
0.01 per input token and 0.02 per output token, account totals at zero. -/
def dbC6 : Db :=
  { users := [{ user_id := 1, email := "a@b.c", usage_record := true,
                total_spent := 0, total_tokens := 0, updated_at := ⟨2026, 10, 1⟩ }]
    api_keys := [{ api_key_id := 10, api_key := "key-6666", user_id := 1,
                   is_disabled := false, updated_at := ⟨2026, 10, 1⟩ }]
    models := [{ model_id := 20, model_name := "m1",
                 input_price_per_token := mkRat 1 100,
                 output_price_per_token := mkRat 2 100, protected_flag := false }]
    inference_profiles := []
    usage := [] }

/-- The key row of `dbC6`. -/
def akC6 : ApiKeyRow :=
  { api_key_id := 10, api_key := "key-6666", user_id := 1,
    is_disabled := false, updated_at := ⟨2026, 10, 1⟩ }

/-- The model row of `dbC6`. -/
def mC6 : ModelRow :=
  { model_id := 20, model_name := "m1",
    input_price_per_token := mkRat 1 100,
    output_price_per_token := mkRat 2 100, protected_flag := false }

/-- The user row of `dbC6`. -/
def uC6 : UserRow :=
  { user_id := 1, email := "a@b.c", usage_record := true,
    total_spent := 0, total_tokens := 0, updated_at := ⟨2026, 10, 1⟩ }

/-- A request reporting 10 input and 5 output tokens against `dbC6`. -/
def reqC6 : CreateUsageRequest :=
  { api_key := "key-6666", model_name := "m1", input_tokens := 10, output_tokens := 5 }

/-- A sample store with one enabled key and one model and no cached
profile, for the provisioning-failure scenario. -/
def dbC3 : Db :=
  { users := [{ user_id := 1, email := "a@b.c", usage_record := true,
                total_spent := 0, total_tokens := 0, updated_at := ⟨2026, 10, 1⟩ }]
    api_keys := [{ api_key_id := 10, api_key := "key-3333", user_id := 1,
                   is_disabled := false, updated_at := ⟨2026, 10, 1⟩ }]
    models := [{ model_id := 20, model_name := "m1",
                 input_price_per_token := mkRat 1 100,
                 output_price_per_token := mkRat 2 100, protected_flag := false }]
    inference_profiles := []
    usage := [] }

/-- A sample store with one enabled key `key-5555` and one model, for the
header-extraction scenario. -/
def dbC5 : Db :=
  { users := [{ user_id := 1, email := "a@b.c", usage_record := true,
                total_spent := 0, total_tokens := 0, updated_at := ⟨2026, 10, 1⟩ }]
    api_keys := [{ api_key_id := 10, api_key := "key-5555", user_id := 1,
                   is_disabled := false, updated_at := ⟨2026, 10, 1⟩ }]
    models := [{ model_id := 20, model_name := "m1",
                 input_price_per_token := mkRat 1 100,
                 output_price_per_token := mkRat 2 100, protected_flag := false }]
    inference_profiles := []
    usage := [] }

/-- A sample store whose (account, model) pair already holds a cached
inference profile. -/
def dbC7 : Db :=
  { users := [{ user_id := 1, email := "a@b.c", usage_record := true,
                total_spent := 0, total_tokens := 0, updated_at := ⟨2026, 10, 1⟩ }]
    api_keys := [{ api_key_id := 10, api_key := "key-7777", user_id := 1,
                   is_disabled := false, updated_at := ⟨2026, 10, 1⟩ }]
    models := [{ model_id := 20, model_name := "m1",
                 input_price_per_token := mkRat 1 100,
                 output_price_per_token := mkRat 2 100, protected_flag := false }]
    inference_profiles := [{ user_id := 1, model_id := 20,
                             inference_profile_arn := "arn:profile-7",
                             inference_profile_name := "name-7" }]
    usage := [] }

/-- A sample store whose only key `key-8888` exists but is disabled. -/
def dbC8a : Db :=
  { users := [{ user_id := 1, email := "a@b.c", usage_record := true,
                total_spent := 0, total_tokens := 0, updated_at := ⟨2026, 10, 1⟩ }]
    api_keys := [{ api_key_id := 10, api_key := "key-8888", user_id := 1,
                   is_disabled := true, updated_at := ⟨2026, 10, 1⟩ }]
    models := [{ model_id := 20, model_name := "m1",
                 input_price_per_token := mkRat 1 100,
                 output_price_per_token := mkRat 2 100, protected_flag := false }]
    inference_profiles := []
    usage := [] }

/-- The same store as `dbC8a` except that `key-8888` does not exist at
all. -/
def dbC8b : Db :=
  { users := [{ user_id := 1, email := "a@b.c", usage_record := true,
                total_spent := 0, total_tokens := 0, updated_at := ⟨2026, 10, 1⟩ }]
    api_keys := []
    models := [{ model_id := 20, model_name := "m1",
                 input_price_per_token := mkRat 1 100,
                 output_price_per_token := mkRat 2 100, protected_flag := false }]
    inference_profiles := []
    usage := [] }

/-- A sample store with one enabled and one already-disabled key on the
same account, for the bulk-disable count. -/
def dbC4 : Db :=
  { users := [{ user_id := 1, email := "a@b.c", usage_record := true,
                total_spent := 0, total_tokens := 0, updated_at := ⟨2026, 10, 1⟩ }]
    api_keys := [{ api_key_id := 10, api_key := "key-4a", user_id := 1,
                   is_disabled := false, updated_at := ⟨2026, 10, 1⟩ },
                 { api_key_id := 11, api_key := "key-4b", user_id := 1,
                   is_disabled := true, updated_at := ⟨2026, 10, 1⟩ }]
    models := []
    inference_profiles := []
    usage := [] }

/-- The user row of `dbC4`. -/
def uC4 : UserRow :=
  { user_id := 1, email := "a@b.c", usage_record := true,
    total_spent := 0, total_tokens := 0, updated_at := ⟨2026, 10, 1⟩ }

/-- A sample store with one enabled key and one model and no cached
profile, for the first-provisioning scenario. -/
def dbC10 : Db :=
  { users := [{ user_id := 1, email := "a@b.c", usage_record := true,
                total_spent := 0, total_tokens := 0, updated_at := ⟨2026, 10, 1⟩ }]
    api_keys := [{ api_key_id := 10, api_key := "key-ten", user_id := 1,
                   is_disabled := false, updated_at := ⟨2026, 10, 1⟩ }]
    models := [{ model_id := 20, model_name := "m1",
                 input_price_per_token := mkRat 1 100,
                 output_price_per_token := mkRat 2 100, protected_flag := false }]
    inference_profiles := []
    usage := [] }

/-- The key row of `dbC10`. -/
def akC10 : ApiKeyRow :=
  { api_key_id := 10, api_key := "key-ten", user_id := 1,
    is_disabled := false, updated_at := ⟨2026, 10, 1⟩ }

/-- The model row of `dbC10`. -/
def mC10 : ModelRow :=
  { model_id := 20, model_name := "m1",
    input_price_per_token := mkRat 1 100,
    output_price_per_token := mkRat 2 100, protected_flag := false }

/-- The store obtained from `db` by appending the single profile row that
`create_inference_profile` persists: the lower-cased routing handle and
lower-cased generated name, keyed by the account and the model. -/
def withProfileRow (db : Db) (uid mid : Nat) (arn pname : String) : Db :=
  { db with inference_profiles := db.inference_profiles ++
      [{ user_id := uid, model_id := mid,
         inference_profile_arn := rustToLowercase arn,
         inference_profile_name := rustToLowercase pname }] }

/-! ### Helper lemmas -/

/-- A filter with a singleton result pins down the first satisfying element. -/
lemma find?_of_filter_eq_singleton {α : Type} (p : α → Bool) (l : List α) (a : α)
    (h : l.filter p = [a]) : l.find? p = some a := by
  induction l with
  | nil => simp at h
  | cons x xs ih =>
    cases hx : p x with
    | false =>
      rw [List.filter_cons_of_neg (by simp [hx])] at h
      rw [List.find?_cons_of_neg _ (by simp [hx])]
      exact ih h
    | true =>
      rw [List.filter_cons_of_pos hx] at h
      rw [List.find?_cons_of_pos _ hx]
      exact congrArg some (List.cons.injEq x (xs.filter p) a [] ▸ h).1

/-- The usage-insert CTE under unique key and model matches: exactly one row,
built from the matching key row and model row. -/
lemma usageInsertRows_eq (db : Db) (req : CreateUsageRequest)
    (ak : ApiKeyRow) (m : ModelRow)
    (hk : db.api_keys.filter (fun r => r.api_key == req.api_key) = [ak])
    (hm : db.models.filter (fun r => r.model_name == req.model_name) = [m]) :
    usageInsertRows db req =
      [{ api_key_id := ak.api_key_id
         model_id := m.model_id
         user_id := ak.user_id
         total_input_cost := m.input_price_per_token * (req.input_tokens : ℚ)
         total_input_tokens := req.input_tokens
         total_output_cost := m.output_price_per_token * (req.output_tokens : ℚ)
         total_output_tokens := req.output_tokens }] := by
  unfold usageInsertRows
  rw [hk, hm]
  rfl

/-- When no row of the store holds an enabled key with the lower-cased
token, the combined validation query reports `key_valid = false`. -/
lemma combined_check_key_false (db : Db) (k model : String)
    (h : ∀ r ∈ db.api_keys, r.api_key = rustToLowercase k → r.is_disabled = true) :
    (check_api_key_exists_and_model_exists_and_get_inference_profile_arn db k model).1
      = false := by
  unfold check_api_key_exists_and_model_exists_and_get_inference_profile_arn
  simp only [List.any_eq_false, Bool.and_eq_true, beq_iff_eq, not_and]
  intro r hr hak
  simp [h r hr hak]

/-- When validation reports an invalid key, the pipeline rejects with the
generic authorization failure, regardless of everything else. -/
lemma chat_completions_rejected_of_invalid_key
    (db : Db) (headers : List (String × String)) (model : String) (stream : Option Bool)
    (region acct : String) (pfxs : List String)
    (backend : String → Except Unit String) (name k : String)
    (hkey : get_api_key headers = some k)
    (hfalse : (check_api_key_exists_and_model_exists_and_get_inference_profile_arn
      db k model).1 = false) :
    chat_completions db headers model stream region acct pfxs backend name
      = PipelineResult.rejected "Invalid or missing API key" := by
  unfold chat_completions
  rw [hkey]
  simp only [hfalse]
  simp

/-! ### Claims -/

/-- C2: for every account and every usage write matching a unique key row and
a unique model row owned by that account, the account's new monthly totals
are the old totals plus this request's cost and tokens when the last-updated
timestamp falls in the current calendar month, and exactly this request's
cost and tokens otherwise (rollover); `updated_at` becomes the current time. -/
theorem create_usage_month_rollover
    (db : Db) (now : Timestamp) (req : CreateUsageRequest)
    (ak : ApiKeyRow) (m : ModelRow) (u : UserRow)
    (hk : db.api_keys.filter (fun r => r.api_key == req.api_key) = [ak])
    (hm : db.models.filter (fun r => r.model_name == req.model_name) = [m])
    (hu : u ∈ db.users) (huid : ak.user_id = u.user_id) :
    ∃ v ∈ (create_usage db now req).users,
      v.user_id = u.user_id ∧
      v.total_tokens =
        (if sameMonth u.updated_at now then
          u.total_tokens + (req.input_tokens + req.output_tokens)
        else req.input_tokens + req.output_tokens) ∧
      v.total_spent =
        (if sameMonth u.updated_at now then
          u.total_spent + (m.input_price_per_token * (req.input_tokens : ℚ) +
            m.output_price_per_token * (req.output_tokens : ℚ))
        else m.input_price_per_token * (req.input_tokens : ℚ) +
          m.output_price_per_token * (req.output_tokens : ℚ)) ∧
      v.updated_at = now := by
  have hrows := usageInsertRows_eq db req ak m hk hm
  refine ⟨_, List.mem_map_of_mem _ hu, ?_⟩
  rw [hrows]
  rw [List.find?_cons_of_pos _ (by simp [huid])]
  by_cases hmon : sameMonth u.updated_at now
  · simp [applyUsageUpdate, hmon]
  · simp [applyUsageUpdate, hmon]

/-- Witness for C2: a second 100-token request in the same month carries
the account from 100 to 100 + 100 tokens. -/
theorem create_usage_month_rollover_witness :
    (dbC2.api_keys.filter (fun r => r.api_key == reqC2.api_key) = [akC2] ∧
     dbC2.models.filter (fun r => r.model_name == reqC2.model_name) = [mC2] ∧
     uC2 ∈ dbC2.users ∧ akC2.user_id = uC2.user_id) ∧
    (∃ v ∈ (create_usage dbC2 ⟨2026, 10, 2⟩ reqC2).users,
      v.user_id = uC2.user_id ∧
      v.total_tokens =
        (if sameMonth uC2.updated_at ⟨2026, 10, 2⟩ then
          uC2.total_tokens + (reqC2.input_tokens + reqC2.output_tokens)
        else reqC2.input_tokens + reqC2.output_tokens) ∧
      v.total_spent =
        (if sameMonth uC2.updated_at ⟨2026, 10, 2⟩ then
          uC2.total_spent + (mC2.input_price_per_token * (reqC2.input_tokens : ℚ) +
            mC2.output_price_per_token * (reqC2.output_tokens : ℚ))
        else mC2.input_price_per_token * (reqC2.input_tokens : ℚ) +
          mC2.output_price_per_token * (reqC2.output_tokens : ℚ)) ∧
      v.updated_at = ⟨2026, 10, 2⟩) ∧
    (sameMonth uC2.updated_at ⟨2026, 10, 2⟩ = true ∧
     uC2.total_tokens + (reqC2.input_tokens + reqC2.output_tokens) = 200) :=
  ⟨⟨by decide, by decide, by decide, rfl⟩,
   create_usage_month_rollover dbC2 ⟨2026, 10, 2⟩ reqC2 akC2 mC2 uC2
     (by decide) (by decide) (by decide) rfl,
   by decide, by decide⟩

/-- C6: every usage write matching a unique key row and a unique model row
— in the same month or across a month boundary alike — inserts exactly one
UsageRecord whose input cost is the model's input price-per-token times
the input token count and whose output cost is the output price-per-token
times the output token count, in exact rational arithmetic; the account's
token total and spend grow by the request's totals within the same month,
and are replaced by them on rollover. -/
theorem create_usage_cost_exact
    (db : Db) (now : Timestamp) (req : CreateUsageRequest)
    (ak : ApiKeyRow) (m : ModelRow) (u : UserRow)
    (hk : db.api_keys.filter (fun r => r.api_key == req.api_key) = [ak])
    (hm : db.models.filter (fun r => r.model_name == req.model_name) = [m])
    (hu : u ∈ db.users) (huid : ak.user_id = u.user_id) :
    (create_usage db now req).usage = db.usage ++
      [{ api_key_id := ak.api_key_id
         model_id := m.model_id
         user_id := ak.user_id
         total_input_cost := m.input_price_per_token * (req.input_tokens : ℚ)
         total_input_tokens := req.input_tokens
         total_output_cost := m.output_price_per_token * (req.output_tokens : ℚ)
         total_output_tokens := req.output_tokens }] ∧
    ∃ v ∈ (create_usage db now req).users,
      v.user_id = u.user_id ∧
      v.total_tokens =
        (if sameMonth u.updated_at now then
          u.total_tokens + (req.input_tokens + req.output_tokens)
        else req.input_tokens + req.output_tokens) ∧
      v.total_spent =
        (if sameMonth u.updated_at now then
          u.total_spent + (m.input_price_per_token * (req.input_tokens : ℚ) +
            m.output_price_per_token * (req.output_tokens : ℚ))
        else m.input_price_per_token * (req.input_tokens : ℚ) +
          m.output_price_per_token * (req.output_tokens : ℚ)) := by
  have hrows := usageInsertRows_eq db req ak m hk hm
  constructor
  · show db.usage ++ usageInsertRows db req = _
    rw [hrows]
  · refine ⟨_, List.mem_map_of_mem _ hu, ?_⟩
    rw [hrows]
    rw [List.find?_cons_of_pos _ (by simp [huid])]
    by_cases hmon : sameMonth u.updated_at now
    · simp [applyUsageUpdate, hmon]
    · simp [applyUsageUpdate, hmon]

/-- Witness for C6: with prices 0.01 and 0.02 per token and 10 input /
5 output tokens, the inserted record's costs are 0.10 and 0.10 (total
exactly 0.20) and the account's token total grows by 15. -/
theorem create_usage_cost_exact_witness :
    (dbC6.api_keys.filter (fun r => r.api_key == reqC6.api_key) = [akC6] ∧
     dbC6.models.filter (fun r => r.model_name == reqC6.model_name) = [mC6] ∧
     uC6 ∈ dbC6.users ∧ akC6.user_id = uC6.user_id ∧
     sameMonth uC6.updated_at ⟨2026, 10, 2⟩ = true) ∧
    ((create_usage dbC6 ⟨2026, 10, 2⟩ reqC6).usage = dbC6.usage ++
      [{ api_key_id := akC6.api_key_id
         model_id := mC6.model_id
         user_id := akC6.user_id
         total_input_cost := mC6.input_price_per_token * (reqC6.input_tokens : ℚ)
         total_input_tokens := reqC6.input_tokens
         total_output_cost := mC6.output_price_per_token * (reqC6.output_tokens : ℚ)
         total_output_tokens := reqC6.output_tokens }] ∧
    ∃ v ∈ (create_usage dbC6 ⟨2026, 10, 2⟩ reqC6).users,
      v.user_id = uC6.user_id ∧
      v.total_tokens =
        (if sameMonth uC6.updated_at ⟨2026, 10, 2⟩ then
          uC6.total_tokens + (reqC6.input_tokens + reqC6.output_tokens)
        else reqC6.input_tokens + reqC6.output_tokens) ∧
      v.total_spent =
        (if sameMonth uC6.updated_at ⟨2026, 10, 2⟩ then
          uC6.total_spent + (mC6.input_price_per_token * (reqC6.input_tokens : ℚ) +
            mC6.output_price_per_token * (reqC6.output_tokens : ℚ))
        else mC6.input_price_per_token * (reqC6.input_tokens : ℚ) +
          mC6.output_price_per_token * (reqC6.output_tokens : ℚ))) ∧
    (mC6.input_price_per_token * (reqC6.input_tokens : ℚ) = mkRat 10 100 ∧
     mC6.output_price_per_token * (reqC6.output_tokens : ℚ) = mkRat 10 100 ∧
     mC6.input_price_per_token * (reqC6.input_tokens : ℚ) +
       mC6.output_price_per_token * (reqC6.output_tokens : ℚ) = mkRat 20 100 ∧
     uC6.total_tokens + (reqC6.input_tokens + reqC6.output_tokens) = 15) :=
  ⟨⟨by decide, by decide, by decide, rfl, by decide⟩,
   create_usage_cost_exact dbC6 ⟨2026, 10, 2⟩ reqC6 akC6 mC6 uC6
     (by decide) (by decide) (by decide) rfl,
   by norm_num [mC6, reqC6, Rat.mkRat_eq_div],
   by norm_num [mC6, reqC6, Rat.mkRat_eq_div],
   by norm_num [mC6, reqC6, Rat.mkRat_eq_div],
   by decide⟩

/-- C1 (divergence witness): in `dbC1` the only account has
`usage_record = false`, yet the usage write still inserts a UsageRecord
and still mutates the account's monthly totals and `updated_at` — the
`create_usage` join never consults the recording flag, so the opt-out is
not enforced anywhere in the write path. -/
theorem create_usage_ignores_recording_optout :
    (∀ u ∈ dbC1.users, u.usage_record = false) ∧
    dbC1.usage = [] ∧
    (create_usage dbC1 ⟨2026, 10, 5⟩ reqC1).usage.length = 1 ∧
    ∃ v ∈ (create_usage dbC1 ⟨2026, 10, 5⟩ reqC1).users,
      v.user_id = 1 ∧ v.total_tokens = 15 ∧ v.updated_at = ⟨2026, 10, 5⟩ := by
  decide

/-- C9: when the usage write's raw (not lower-cased) key string matches no
stored key row exactly, or its raw model string matches no stored model
row exactly, `create_usage` leaves the store completely unchanged — no
UsageRecord, no account mutation — while still reporting success. -/
theorem create_usage_unmatched_is_silent_noop
    (db : Db) (now : Timestamp) (req : CreateUsageRequest)
    (h : db.api_keys.filter (fun r => r.api_key == req.api_key) = [] ∨
         db.models.filter (fun r => r.model_name == req.model_name) = []) :
    create_usage db now req = db := by
  have hrows : usageInsertRows db req = [] := by
    unfold usageInsertRows
    rcases h with h | h
    · rw [h]; rfl
    · rw [h]; simp
  unfold create_usage
  rw [hrows]
  simp

/-- Witness for C9: the stored key is `key-9999`; a write presenting
`KEY-9999` is accepted by validation (which lower-cases) but is a silent
no-op in the ledger (which does not). -/
theorem create_usage_unmatched_is_silent_noop_witness :
    (dbC9.api_keys.filter (fun r => r.api_key == reqC9.api_key) = [] ∨
     dbC9.models.filter (fun r => r.model_name == reqC9.model_name) = []) ∧
    create_usage dbC9 ⟨2026, 10, 3⟩ reqC9 = dbC9 ∧
    check_api_key_exists dbC9 reqC9.api_key = true :=
  ⟨Or.inl (by decide),
   create_usage_unmatched_is_silent_noop dbC9 ⟨2026, 10, 3⟩ reqC9 (Or.inl (by decide)),
   by decide⟩

/-- C3: for a request whose key and model validate but whose (account,
model) pair has no cached profile, a failing backend provisioning call
does not reject the request: the pipeline opens the relay with the
lower-cased caller-supplied model name as the routing handle, and the
store is left unchanged (no profile row persisted), so the next request
for the pair provisions again. -/
theorem provisioning_failure_non_fatal
    (db : Db) (headers : List (String × String)) (model : String) (stream : Option Bool)
    (region acct : String) (pfxs : List String) (k name : String)
    (backend : String → Except Unit String)
    (hkey : get_api_key headers = some k)
    (hv : check_api_key_exists_and_model_exists_and_get_inference_profile_arn db k model
      = (true, true, none))
    (hs : stream ≠ some false)
    (hb : backend (copyFromSource model region acct pfxs) = Except.error ()) :
    chat_completions db headers model stream region acct pfxs backend name
      = PipelineResult.relaying (rustToLowercase model) db := by
  unfold chat_completions create_inference_profile
  rw [hkey]
  simp only [hv, if_neg hs, hb]
  simp

/-- Witness for C3: against `dbC3`, an always-failing provisioning stub
still lets the request reach the relay with handle `m1`, and the store is
untouched. -/
theorem provisioning_failure_non_fatal_witness :
    (get_api_key [("Authorization", "Bearer key-3333")] = some "key-3333" ∧
     check_api_key_exists_and_model_exists_and_get_inference_profile_arn dbC3 "key-3333" "m1"
       = (true, true, none) ∧
     (none : Option Bool) ≠ some false ∧
     (fun _ : String => (Except.error () : Except Unit String))
       (copyFromSource "m1" "us-east-1" "123456789012" []) = Except.error ()) ∧
    chat_completions dbC3 [("Authorization", "Bearer key-3333")] "m1" none
      "us-east-1" "123456789012" [] (fun _ => Except.error ()) "generated-name"
      = PipelineResult.relaying (rustToLowercase "m1") dbC3 :=
  ⟨⟨by decide, by decide, by decide, rfl⟩,
   provisioning_failure_non_fatal dbC3 [("Authorization", "Bearer key-3333")] "m1" none
     "us-east-1" "123456789012" [] "key-3333" "generated-name" (fun _ => Except.error ())
     (by decide) (by decide) (by decide) rfl⟩

/-- C7: once the combined validation query returns a cached profile ARN
for the (account, model) pair, the pipeline relays with exactly that
stored handle and leaves the store unchanged, for every possible backend
and generated name — i.e. no provisioning call influences the outcome,
and repeated requests keep obtaining the same stored handle. -/
theorem profile_resolution_idempotent
    (db : Db) (headers : List (String × String)) (model : String) (stream : Option Bool)
    (region acct : String) (pfxs : List String) (k arn : String)
    (hkey : get_api_key headers = some k)
    (hv : check_api_key_exists_and_model_exists_and_get_inference_profile_arn db k model
      = (true, true, some arn))
    (hs : stream ≠ some false) :
    ∀ backend name,
      chat_completions db headers model stream region acct pfxs backend name
        = PipelineResult.relaying arn db := by
  intro backend name
  unfold chat_completions
  rw [hkey]
  simp only [hv, if_neg hs]
  simp

/-- Witness for C7: in `dbC7` the pair already holds `arn:profile-7`; the
pipeline relays with it whatever the backend would answer. -/
theorem profile_resolution_idempotent_witness :
    (get_api_key [("Authorization", "Bearer key-7777")] = some "key-7777" ∧
     check_api_key_exists_and_model_exists_and_get_inference_profile_arn dbC7 "key-7777" "m1"
       = (true, true, some "arn:profile-7") ∧
     (none : Option Bool) ≠ some false) ∧
    ∀ backend name,
      chat_completions dbC7 [("Authorization", "Bearer key-7777")] "m1" none
        "us-east-1" "123456789012" [] backend name
        = PipelineResult.relaying "arn:profile-7" dbC7 :=
  ⟨⟨by decide, by decide, by decide⟩,
   profile_resolution_idempotent dbC7 [("Authorization", "Bearer key-7777")] "m1" none
     "us-east-1" "123456789012" [] "key-7777" "arn:profile-7"
     (by decide) (by decide) (by decide)⟩

/-- C8: a request presenting a key that exists but is disabled and an
otherwise identical request against a store where that key does not exist
at all receive the very same observable response — the generic
authorization failure — so the caller cannot tell the two cases apart. -/
theorem auth_failure_indistinguishable
    (db1 db2 : Db) (headers : List (String × String)) (model : String) (stream : Option Bool)
    (region acct : String) (pfxs : List String)
    (backend : String → Except Unit String) (name k : String)
    (hkey : get_api_key headers = some k)
    (_hexists : ∃ r ∈ db1.api_keys, r.api_key = rustToLowercase k)
    (hdisabled : ∀ r ∈ db1.api_keys, r.api_key = rustToLowercase k → r.is_disabled = true)
    (habsent : ∀ r ∈ db2.api_keys, r.api_key ≠ rustToLowercase k) :
    chat_completions db1 headers model stream region acct pfxs backend name
      = chat_completions db2 headers model stream region acct pfxs backend name ∧
    chat_completions db1 headers model stream region acct pfxs backend name
      = PipelineResult.rejected "Invalid or missing API key" := by
  have k1 := combined_check_key_false db1 k model hdisabled
  have k2 := combined_check_key_false db2 k model
    (fun r hr hmatch => absurd hmatch (habsent r hr))
  have e1 := chat_completions_rejected_of_invalid_key db1 headers model stream region acct
    pfxs backend name k hkey k1
  have e2 := chat_completions_rejected_of_invalid_key db2 headers model stream region acct
    pfxs backend name k hkey k2
  exact ⟨e1.trans e2.symm, e1⟩

/-- Witness for C8: `key-8888` is disabled in `dbC8a` and absent from
`dbC8b`; both requests are rejected with the identical message. -/
theorem auth_failure_indistinguishable_witness :
    (get_api_key [("Authorization", "Bearer key-8888")] = some "key-8888" ∧
     (∃ r ∈ dbC8a.api_keys, r.api_key = rustToLowercase "key-8888") ∧
     (∀ r ∈ dbC8a.api_keys, r.api_key = rustToLowercase "key-8888" → r.is_disabled = true) ∧
     (∀ r ∈ dbC8b.api_keys, r.api_key ≠ rustToLowercase "key-8888")) ∧
    (chat_completions dbC8a [("Authorization", "Bearer key-8888")] "m1" (some true)
      "us-east-1" "123456789012" [] (fun _ => Except.ok "arn:z") "nm"
      = chat_completions dbC8b [("Authorization", "Bearer key-8888")] "m1" (some true)
        "us-east-1" "123456789012" [] (fun _ => Except.ok "arn:z") "nm" ∧
    chat_completions dbC8a [("Authorization", "Bearer key-8888")] "m1" (some true)
      "us-east-1" "123456789012" [] (fun _ => Except.ok "arn:z") "nm"
      = PipelineResult.rejected "Invalid or missing API key") :=
  ⟨⟨by decide, by decide, by decide, by decide⟩,
   auth_failure_indistinguishable dbC8a dbC8b [("Authorization", "Bearer key-8888")] "m1"
     (some true) "us-east-1" "123456789012" [] (fun _ => Except.ok "arn:z") "nm" "key-8888"
     (by decide) (by decide) (by decide) (by decide)⟩

/-- C5 (divergence witness): `get_api_key` reads only the
`Authorization: Bearer` header; a request presenting a valid enabled key
solely in the `x-api-key` header is not authenticated but treated as the
missing-credential case, exactly like a request with neither header —
even though the handler's own error message advertises the `x-api-key`
fallback. -/
theorem get_api_key_no_fallback_header :
    check_api_key_exists dbC5 "key-5555" = true ∧
    get_api_key [("x-api-key", "key-5555")] = none ∧
    get_api_key [("Authorization", "Bearer key-5555")] = some "key-5555" ∧
    chat_completions dbC5 [("x-api-key", "key-5555")] "m1" (some true)
      "us-east-1" "123456789012" [] (fun _ => Except.ok "arn:ok") "nm"
      = PipelineResult.rejected
        "Missing API key (provide Authorization: Bearer <key> or x-api-key header)" ∧
    chat_completions dbC5 [] "m1" (some true)
      "us-east-1" "123456789012" [] (fun _ => Except.ok "arn:ok") "nm"
      = PipelineResult.rejected
        "Missing API key (provide Authorization: Bearer <key> or x-api-key header)" := by
  decide

/-- C4 counterexample: in `dbC4` only one key transitions from enabled to
disabled, but the bulk-disable returns 2 — the SQL counts every key row
of the account, keys already disabled included. -/
theorem disable_all_api_keys_count_counterexample :
    (dbC4.api_keys.filter (fun r => r.user_id == 1 && r.is_disabled == false)).length = 1 ∧
    (disable_all_api_keys dbC4 "a@b.c" ⟨2026, 10, 7⟩).1 = 2 := by
  decide

/-- C4 as amended: bulk-disable makes every key of the account fail
validation afterwards, and returns the number of key rows belonging to
the account — enabled or already disabled — not the number that actually
transitioned. -/
theorem disable_all_api_keys_amended
    (db : Db) (email : String) (now : Timestamp) (u : UserRow)
    (hu : db.users.find? (fun r => r.email == rustToLowercase email) = some u) :
    (disable_all_api_keys db email now).1
      = (db.api_keys.filter (fun r => r.user_id == u.user_id)).length ∧
    (∀ r ∈ (disable_all_api_keys db email now).2.api_keys,
      r.user_id = u.user_id → r.is_disabled = true) ∧
    (∀ s : String,
      (∀ r ∈ db.api_keys, r.api_key = rustToLowercase s → r.user_id = u.user_id) →
      check_api_key_exists (disable_all_api_keys db email now).2 s = false) := by
  unfold disable_all_api_keys
  rw [hu]
  simp only [Option.map_some']
  refine ⟨trivial, ?_, ?_⟩
  · intro r hr hru
    obtain ⟨r0, hr0, rfl⟩ := List.mem_map.mp hr
    by_cases h0 : r0.user_id = u.user_id
    · have hb : (r0.user_id == u.user_id) = true := by simpa using h0
      simp [hb]
    · have hb : (r0.user_id == u.user_id) = false := by simpa using h0
      simp [hb] at hru
      exact absurd hru h0
  · intro s hs
    unfold check_api_key_exists
    simp only [List.any_eq_false, Bool.and_eq_true, beq_iff_eq, not_and]
    intro r hr
    obtain ⟨r0, hr0, rfl⟩ := List.mem_map.mp hr
    by_cases h0 : r0.user_id = u.user_id
    · simp [h0]
    · simp only [h0, if_false]
      intro hak
      exact absurd (hs r0 hr0 hak) h0

/-- Witness for amended C4: on `dbC4` the call returns 2 (both key rows of
the account), every key of the account is disabled afterwards, and every
key string that only the account's rows carry fails validation. -/
theorem disable_all_api_keys_amended_witness :
    (dbC4.users.find? (fun r => r.email == rustToLowercase "a@b.c") = some uC4) ∧
    ((disable_all_api_keys dbC4 "a@b.c" ⟨2026, 10, 7⟩).1
      = (dbC4.api_keys.filter (fun r => r.user_id == uC4.user_id)).length ∧
    (∀ r ∈ (disable_all_api_keys dbC4 "a@b.c" ⟨2026, 10, 7⟩).2.api_keys,
      r.user_id = uC4.user_id → r.is_disabled = true) ∧
    (∀ s : String,
      (∀ r ∈ dbC4.api_keys, r.api_key = rustToLowercase s → r.user_id = uC4.user_id) →
      check_api_key_exists (disable_all_api_keys dbC4 "a@b.c" ⟨2026, 10, 7⟩).2 s = false)) :=
  ⟨by decide, disable_all_api_keys_amended dbC4 "a@b.c" ⟨2026, 10, 7⟩ uC4 (by decide)⟩

/-- C10: on a provisioning success the persisted profile row stores the
lower-cased ARN (and lower-cased generated name) while the function
returns the backend's ARN unmodified; the cache therefore hands every
subsequent request the lower-cased handle, which differs from the handle
used by the first request whenever the backend ARN contains an uppercase
character. -/
theorem create_inference_profile_stores_lowercased_arn
    (db : Db) (api_key model region acct : String) (pfxs : List String)
    (backend : String → Except Unit String) (pname arn : String)
    (ak : ApiKeyRow) (m : ModelRow)
    (hb : backend (copyFromSource model region acct pfxs) = Except.ok arn)
    (hk : db.api_keys.filter (fun r => r.api_key == rustToLowercase api_key) = [ak])
    (hm : db.models.filter (fun r => r.model_name == rustToLowercase model) = [m])
    (hno : ∀ p ∈ db.inference_profiles,
      ¬(p.user_id = ak.user_id ∧ p.model_id = m.model_id)) :
    create_inference_profile db api_key model region acct pfxs backend pname
      = Except.ok (arn, withProfileRow db ak.user_id m.model_id arn pname) ∧
    (check_api_key_exists_and_model_exists_and_get_inference_profile_arn
        (withProfileRow db ak.user_id m.model_id arn pname) api_key model).2.2
      = some (rustToLowercase arn) ∧
    (rustToLowercase arn ≠ arn →
      (check_api_key_exists_and_model_exists_and_get_inference_profile_arn
          (withProfileRow db ak.user_id m.model_id arn pname) api_key model).2.2
        ≠ some arn) := by
  have hfk := find?_of_filter_eq_singleton _ _ _ hk
  have hfm := find?_of_filter_eq_singleton _ _ _ hm
  have h2 : (check_api_key_exists_and_model_exists_and_get_inference_profile_arn
      (withProfileRow db ak.user_id m.model_id arn pname) api_key model).2.2
      = some (rustToLowercase arn) := by
    unfold check_api_key_exists_and_model_exists_and_get_inference_profile_arn withProfileRow
    simp only [hfk, hfm, Option.map_some']
    rw [List.find?_append]
    rw [List.find?_eq_none.mpr (fun p hp => by
      simp only [Bool.and_eq_true, beq_iff_eq, not_and]
      intro h1 h2
      exact hno p hp ⟨h1, h2⟩)]
    simp
  refine ⟨?_, h2, fun hne => by rw [h2]; simpa using fun hcontra => hne hcontra⟩
  unfold create_inference_profile withProfileRow
  simp only [hk, hm, hb]
  rfl

/-- Witness for C10: the backend answers `ARN:Profile-X`; the first
request relays with that exact string while the persisted row and every
later cache hit carry `arn:profile-x`. -/
theorem create_inference_profile_stores_lowercased_arn_witness :
    ((fun _ : String => (Except.ok "ARN:Profile-X" : Except Unit String))
       (copyFromSource "m1" "us-east-1" "123456789012" []) = Except.ok "ARN:Profile-X" ∧
     dbC10.api_keys.filter (fun r => r.api_key == rustToLowercase "key-ten") = [akC10] ∧
     dbC10.models.filter (fun r => r.model_name == rustToLowercase "m1") = [mC10] ∧
     (∀ p ∈ dbC10.inference_profiles,
       ¬(p.user_id = akC10.user_id ∧ p.model_id = mC10.model_id)) ∧
     rustToLowercase "ARN:Profile-X" ≠ "ARN:Profile-X") ∧
    (create_inference_profile dbC10 "key-ten" "m1" "us-east-1" "123456789012" []
        (fun _ => Except.ok "ARN:Profile-X") "Name-1"
      = Except.ok ("ARN:Profile-X",
          withProfileRow dbC10 akC10.user_id mC10.model_id "ARN:Profile-X" "Name-1") ∧
    (check_api_key_exists_and_model_exists_and_get_inference_profile_arn
        (withProfileRow dbC10 akC10.user_id mC10.model_id "ARN:Profile-X" "Name-1")
        "key-ten" "m1").2.2
      = some (rustToLowercase "ARN:Profile-X") ∧
    (rustToLowercase "ARN:Profile-X" ≠ "ARN:Profile-X" →
      (check_api_key_exists_and_model_exists_and_get_inference_profile_arn
          (withProfileRow dbC10 akC10.user_id mC10.model_id "ARN:Profile-X" "Name-1")
          "key-ten" "m1").2.2
        ≠ some "ARN:Profile-X")) :=
  ⟨⟨rfl, by decide, by decide, by decide, by decide⟩,
   create_inference_profile_stores_lowercased_arn dbC10 "key-ten" "m1" "us-east-1"
     "123456789012" [] (fun _ => Except.ok "ARN:Profile-X") "Name-1" "ARN:Profile-X"
     akC10 mC10 rfl (by decide) (by decide) (by decide)⟩

end Gateway
